import Mathlib

/-!
Verification development for the apiclient-rs HTTP API client engine
(src/client.rs, src/auth.rs, src/error.rs).

The Rust code is shallowly embedded: HTTP statuses are `Nat`, bodies are
`String`, the JSON data model is the inductive `Value` (numbers restricted to
integers, which is all the claims exercise), and the HTTP transport is
abstracted as a function from the attempt index to either a network error or a
completed `Response` — exactly the interface `reqwest` presents to this crate.
Type-directed (de)serialization (`serde_json::from_str`, `serde_json::to_string`,
`serde_path_to_error::deserialize`) is abstracted as explicit
encode/decode function parameters, since the concrete `T`/`B` types are chosen
by callers outside this crate. The executor functions additionally return the
number of transport sends performed, as instrumentation for the retry claims.
-/

namespace ApiClientRs

/-! ## String utilities (Rust `str::trim_end_matches` / `trim_start_matches`) -/

/-- Rust `s.trim_start_matches(c)`: repeatedly remove the leading character
while it equals `c`. -/
def trimStartMatches (c : Char) : List Char → List Char
  | [] => []
  | x :: xs => if x = c then trimStartMatches c xs else x :: xs

/-- Rust `s.trim_end_matches(c)`: repeatedly remove the trailing character
while it equals `c`. -/
def trimEndMatches (c : Char) (l : List Char) : List Char :=
  (trimStartMatches c l.reverse).reverse

/-! ## JSON data model (`serde_json::Value`, numbers restricted to integers) -/

/-- The `serde_json::Value` JSON tree. An object is the ordered field list the
serializer produced from the source struct. Numbers are modelled as integers:
that is the only number shape the specification and claims exercise. -/
inductive Value : Type where
  | null : Value
  | bool (b : Bool) : Value
  | num (n : Int) : Value
  | str (s : String) : Value
  | arr (elems : List Value) : Value
  | obj (fields : List (String × Value)) : Value

/-- Whether a `Value` is a JSON object. -/
def Value.isObj : Value → Bool
  | .obj _ => true
  | _ => false

/-! ## Error taxonomy (`src/error.rs`, enum `ApiClientError`) -/

/-- The closed failure taxonomy of `src/error.rs`. Payloads of the underlying
library error types (`reqwest::Error`, `serde_json::Error`) are carried as
their message strings. -/
inductive ApiClientError : Type where
  | Network (msg : String) : ApiClientError
  | HttpStatus (status : Nat) : ApiClientError
  | JsonParse (msg : String) : ApiClientError
  | DeserializeError (msg : String) : ApiClientError
  | RateLimit (body : String) : ApiClientError
  | ApiError (status : Nat) (body : String) : ApiClientError
  | Unexpected (msg : String) : ApiClientError
  | MaxRetriesReached : ApiClientError
deriving DecidableEq, Repr

/-! ## Responses and the response handler (`handle_response`) -/

/-- A completed HTTP response as this crate consumes it: a status code and the
body text, where `none` models a failure of `response.text()`. -/
structure Response : Type where
  status : Nat
  text : Option String
deriving DecidableEq, Repr

/-- The body text `handle_response` works with:
`response.text().await.unwrap_or_else(|_| "Failed to read response body")`. -/
def bodyText (r : Response) : String :=
  r.text.getD ("Failed to read response body")

/-- Rust `StatusCode::is_success`: the 2xx range. -/
def isSuccessStatus (s : Nat) : Bool :=
  decide (200 ≤ s) && decide (s < 300)

/-- `ApiClient::handle_response`, parameterized by the `serde_json::from_str::<T>`
decode function for the caller-chosen type `T`. -/
def handle_response {T : Type} (decode : String → Except String T)
    (r : Response) : Except ApiClientError T :=
  let body := bodyText r
  if isSuccessStatus r.status then
    match decode body with
    | Except.ok v => Except.ok v
    | Except.error e => Except.error (ApiClientError.JsonParse e)
  else if r.status = 429 then
    Except.error (ApiClientError.RateLimit body)
  else
    Except.error (ApiClientError.ApiError r.status body)

/-! ## Requests, auth and the client (`src/auth.rs`, `ApiClient`) -/

/-- A request body held by a `reqwest::RequestBuilder`: either an in-memory
buffer (cloneable) or a stream (not cloneable). -/
inductive Body : Type where
  | buffered (payload : String) : Body
  | stream : Body
deriving DecidableEq, Repr

/-- The parts of a `reqwest::RequestBuilder` this crate manipulates. -/
structure RequestBuilder : Type where
  url : String
  headers : List (String × String)
  query : List (String × String)
  body : Option Body
deriving DecidableEq, Repr

/-- `RequestBuilder::try_clone`: fails exactly when the body is a stream. -/
def RequestBuilder.tryClone (r : RequestBuilder) : Option RequestBuilder :=
  match r.body with
  | some Body.stream => none
  | _ => some r

/-- The auth strategies of `src/auth.rs` as a closed sum: `HeaderAuth` stores a
header name and an api key, `BearerAuth` stores a token. -/
inductive AuthStrategy : Type where
  | headerAuth (header api_key : String) : AuthStrategy
  | bearerAuth (token : String) : AuthStrategy
deriving DecidableEq, Repr

/-- `AuthStrategy::apply_auth`: add the credential header to the request. -/
def AuthStrategy.apply_auth (a : AuthStrategy) (r : RequestBuilder) : RequestBuilder :=
  match a with
  | .headerAuth header api_key => { r with headers := r.headers ++ [(header, api_key)] }
  | .bearerAuth token => { r with headers := r.headers ++ [("authorization", "Bearer " ++ token)] }

/-- The `ApiClient` state: the stored base url and the optional auth strategy.
The `reqwest::Client` transport handle carries no state this model needs. -/
structure ApiClient : Type where
  base_url : String
  auth_strategy : Option AuthStrategy
deriving DecidableEq, Repr

/-- `ApiClient::new`: store `base_url.trim_end_matches('/')`. -/
def ApiClient.new (base_url : String) (auth_strategy : Option AuthStrategy) : ApiClient :=
  { base_url := String.mk (trimEndMatches '/' base_url.data), auth_strategy := auth_strategy }

/-- `ApiClient::apply_auth`: apply the strategy when one is configured. -/
def applyAuth (auth : Option AuthStrategy) (r : RequestBuilder) : RequestBuilder :=
  match auth with
  | some a => a.apply_auth r
  | none => r

/-- The URL join used by both `get` and `post`:
`format!("{}/{}", self.base_url, endpoint.trim_start_matches('/'))`. -/
def joinUrl (base endpoint : String) : String :=
  String.mk (base.data ++ '/' :: trimStartMatches '/' endpoint.data)

/-- The GET request `ApiClient::get` prepares before executing: joined URL,
auth applied, optional query parameters, and no body. -/
def buildGetRequest (c : ApiClient) (endpoint : String)
    (params : Option (List (String × String))) : RequestBuilder :=
  let base : RequestBuilder :=
    { url := joinUrl c.base_url endpoint, headers := [], query := [], body := none }
  let authed := applyAuth c.auth_strategy base
  match params with
  | some ps => { authed with query := ps }
  | none => authed

/-- The POST request `ApiClient::post` prepares: joined URL and auth applied
(the optional JSON body is attached afterwards). -/
def buildPostRequest (c : ApiClient) (endpoint : String) : RequestBuilder :=
  applyAuth c.auth_strategy
    { url := joinUrl c.base_url endpoint, headers := [], query := [], body := none }

/-! ## The request executor (`ApiClient::execute_request`) -/

/-- The outcome of one transport send: either a `reqwest` network error message
or a completed response. The transport is a function from the attempt index to
an outcome, abstracting the server across the retry loop. -/
abbrev Transport : Type := Nat → Except String Response

/-- The outcome attempt `i` would produce once handled: a network error maps to
`Network`, otherwise the response is classified by `handle_response`. -/
def classifyAttempt {T : Type} (decode : String → Except String T)
    (transport : Transport) (i : Nat) : Except ApiClientError T :=
  match transport i with
  | Except.error e => Except.error (ApiClientError.Network e)
  | Except.ok resp => handle_response decode resp

/-- Whether an outcome is the rate-limited error, the only retried kind. -/
def isRateLimited {T : Type} : Except ApiClientError T → Bool
  | Except.error (ApiClientError.RateLimit _) => true
  | _ => false

/-- The loop body of `ApiClient::execute_request`: `i` is the attempt index,
the second `Nat` the remaining attempt budget (`retries` in the source, which
starts at 3 and is decremented on each rate-limited outcome). The result is
`none` when `request.try_clone().unwrap()` would panic, and otherwise the
result of the call paired with the number of transport sends performed. -/
def executeRequestAux {T : Type} (req : RequestBuilder)
    (decode : String → Except String T) (transport : Transport) :
    Nat → Nat → Option (Except ApiClientError T × Nat)
  | _, 0 => some (Except.error ApiClientError.MaxRetriesReached, 0)
  | i, r + 1 =>
    match req.tryClone with
    | none => none
    | some _ =>
      match transport i with
      | Except.error e => some (Except.error (ApiClientError.Network e), 1)
      | Except.ok resp =>
        match handle_response decode resp with
        | Except.ok v => some (Except.ok v, 1)
        | Except.error err =>
          match err with
          | ApiClientError.RateLimit _ =>
            match executeRequestAux req decode transport (i + 1) r with
            | none => none
            | some (res, n) => some (res, n + 1)
          | _ => some (Except.error err, 1)

/-- `ApiClient::execute_request`: run the retry loop with `retries = 3`. -/
def execute_request {T : Type} (req : RequestBuilder)
    (decode : String → Except String T) (transport : Transport) :
    Option (Except ApiClientError T × Nat) :=
  executeRequestAux req decode transport 0 3

/-- `ApiClient::get`: build the request (URL join, auth, query parameters) and
run it through `execute_request`. -/
def ApiClient.get {T : Type} (c : ApiClient) (endpoint : String)
    (params : Option (List (String × String)))
    (decode : String → Except String T) (transport : Transport) :
    Option (Except ApiClientError T × Nat) :=
  execute_request (buildGetRequest c endpoint params) decode transport

/-! ## `ApiClient::post` -/

/-- The single send `post` performs: consult the transport at attempt index 0,
map a network failure to `Network`, otherwise classify the response. The `Nat`
is the number of transport sends (always 1 here). -/
def sendOnce {T : Type} (decode : String → Except String T)
    (transport : Transport) : Except ApiClientError T × Nat :=
  match transport 0 with
  | Except.error e => (Except.error (ApiClientError.Network e), 1)
  | Except.ok resp => (handle_response decode resp, 1)

/-- `ApiClient::post`: join the URL and apply auth (see `buildPostRequest`),
serialize the optional body with `ser` (modelling `serde_json::to_string`,
whose failure is returned as `DeserializeError` before anything is sent), then
send exactly once and classify the response with `handle_response`. -/
def ApiClient.post {T B : Type} (c : ApiClient) (endpoint : String)
    (body : Option B) (ser : B → Except String String)
    (decode : String → Except String T) (transport : Transport) :
    Except ApiClientError T × Nat :=
  let _req := buildPostRequest c endpoint
  match body with
  | some b =>
    match ser b with
    | Except.error e => (Except.error (ApiClientError.DeserializeError e), 0)
    | Except.ok _ => sendOnce decode transport
  | none => sendOnce decode transport

/-! ## `ApiClient::serialize_params` -/

/-- The scalar stringification inside `convert_json_to_pairs`: strings pass
through, booleans and numbers use their `to_string`; every other value
(array, object, null) yields `none` (the loop `continue`s over it). -/
def scalarToString : Value → Option String
  | Value.str s => some s
  | Value.bool b => some (toString b)
  | Value.num n => some (toString n)
  | _ => none

/-- The field loop of `convert_json_to_pairs`: push `(key, stringified value)`
for scalar fields in iteration order, skip everything else. -/
def convertPairsLoop : List (String × Value) → List (String × String)
  | [] => []
  | (k, v) :: rest =>
    match scalarToString v with
    | some s => (k, s) :: convertPairsLoop rest
    | none => convertPairsLoop rest

/-- `convert_json_to_pairs` (the inner helper of `serialize_params`): flatten
an object value into pairs; any non-object value yields the empty list. -/
def convert_json_to_pairs (v : Value) : List (String × String) :=
  match v with
  | Value.obj fields => convertPairsLoop fields
  | _ => []

/-- `ApiClient::serialize_params`, taking the JSON value the parameter object
serializes to (the source round-trips through a JSON string; the composition
of `to_string` and `from_str` is the identity embedding into `Value`). -/
def serialize_params (params : Option Value) :
    Except ApiClientError (Option (List (String × String))) :=
  match params with
  | none => Except.ok none
  | some v => Except.ok (some (convert_json_to_pairs v))

/-! ## `ApiClient::deserialize_response` (path-aware) -/

/-- A `serde_path_to_error` error: the field path at which decoding failed and
the underlying message. -/
structure PathError : Type where
  path : String
  msg : String
deriving DecidableEq, Repr

/-- The `Display` rendering of a `serde_path_to_error::Error`: the path,
then the underlying error message. -/
def pathErrToString (e : PathError) : String :=
  String.mk (e.path.data ++ (": ").data ++ e.msg.data)

/-- `ApiClient::deserialize_response`, parameterized by the path-aware decode
function for the caller-chosen `T`: a decode failure becomes
`DeserializeError(err.to_string())`. -/
def deserialize_response {T : Type} (de : Value → Except PathError T)
    (v : Value) : Except ApiClientError T :=
  match de v with
  | Except.ok t => Except.ok t
  | Except.error e => Except.error (ApiClientError.DeserializeError (pathErrToString e))

/-! ## Debug renderings (`src/auth.rs`) -/

/-- The `Debug` output of `HeaderAuth`: the struct name, then the header name
as the printed field label, then the fixed `"***"` mask — the stored api key
is never read by the formatter. -/
def HeaderAuth.fmtDebug (header api_key : String) : String :=
  String.mk (("HeaderAuth \x7b ").data ++ header.data ++ (": \"***\" \x7d").data)

/-- The `Debug` output of `BearerAuth`: the struct name, the literal field
label `token`, and the fixed `"***"` mask — the stored token is never read by
the formatter. -/
def BearerAuth.fmtDebug (token : String) : String :=
  "BearerAuth \x7b token: \"***\" \x7d"

/-- Substring test on character lists, used to state containment of a secret
in a rendered string. -/
def containsSub (needle : List Char) : List Char → Bool
  | [] => needle.isEmpty
  | c :: rest => needle.isPrefixOf (c :: rest) || containsSub needle rest

/-! ## Helper lemmas -/

/-- After trimming a leading character, the result cannot start with it. -/
theorem trimStartMatches_head (c : Char) (l : List Char) :
    (trimStartMatches c l).head? ≠ some c := by
  induction l with
  | nil => simp [trimStartMatches]
  | cons x xs ih =>
    simp only [trimStartMatches]
    split
    · exact ih
    · next h => simpa using fun hx => h hx

/-- After trimming a trailing character, the result cannot end with it. -/
theorem trimEndMatches_getLast (c : Char) (l : List Char) :
    (trimEndMatches c l).getLast? ≠ some c := by
  unfold trimEndMatches
  rw [List.getLast?_reverse]
  exact trimStartMatches_head c l.reverse

/-- Applying an auth strategy only touches the headers, never the body. -/
theorem applyAuth_body (auth : Option AuthStrategy) (r : RequestBuilder) :
    (applyAuth auth r).body = r.body := by
  cases auth with
  | none => rfl
  | some a => cases a <;> rfl

/-- GET requests carry no body. -/
theorem buildGetRequest_body (c : ApiClient) (endpoint : String)
    (params : Option (List (String × String))) :
    (buildGetRequest c endpoint params).body = none := by
  cases params <;> simp [buildGetRequest, applyAuth_body]

/-- A bodiless request clones successfully (to itself). -/
theorem tryClone_of_body_none (r : RequestBuilder) (h : r.body = none) :
    r.tryClone = some r := by
  simp [RequestBuilder.tryClone, h]

/-- An outcome is rate-limited exactly when it is a `RateLimit` error. -/
theorem isRateLimited_iff {T : Type} (o : Except ApiClientError T) :
    isRateLimited o = true ↔ ∃ m, o = Except.error (ApiClientError.RateLimit m) := by
  cases o with
  | ok v => simp [isRateLimited]
  | error e => cases e <;> simp [isRateLimited]

/-- A request that fails to clone makes the executor panic (`none`). -/
theorem executeRequestAux_cloneFail {T : Type} (req : RequestBuilder)
    (decode : String → Except String T) (transport : Transport) (i r : Nat)
    (hcl : req.tryClone = none) :
    executeRequestAux req decode transport i (r + 1) = none := by
  rw [executeRequestAux, hcl]

/-- One unfolding of the executor loop for a cloneable request, phrased
through `classifyAttempt`: a success or non-rate-limited error settles the call
after this one send, a rate-limited outcome consumes one attempt and loops. -/
theorem executeRequestAux_succ {T : Type} (req req2 : RequestBuilder)
    (decode : String → Except String T) (transport : Transport) (i r : Nat)
    (hcl : req.tryClone = some req2) :
    executeRequestAux req decode transport i (r + 1) =
      match classifyAttempt decode transport i with
      | Except.ok v => some (Except.ok v, 1)
      | Except.error (ApiClientError.RateLimit _) =>
        match executeRequestAux req decode transport (i + 1) r with
        | none => none
        | some (res, n) => some (res, n + 1)
      | Except.error err => some (Except.error err, 1) := by
  rw [executeRequestAux, hcl]
  unfold classifyAttempt
  cases ht : transport i with
  | error e => rfl
  | ok resp =>
    dsimp only
    cases hh : handle_response decode resp with
    | ok v => rfl
    | error err => cases err <;> rfl

/-- The executor performs at most as many sends as its attempt budget. -/
theorem executeRequestAux_sends_le {T : Type} (req : RequestBuilder)
    (decode : String → Except String T) (transport : Transport) :
    ∀ (r i : Nat) (res : Except ApiClientError T) (n : Nat),
      executeRequestAux req decode transport i r = some (res, n) → n ≤ r := by
  intro r
  induction r with
  | zero =>
    intro i res n h
    simp [executeRequestAux] at h
    omega
  | succ r ih =>
    intro i res n h
    cases hcl : req.tryClone with
    | none => rw [executeRequestAux_cloneFail req decode transport i r hcl] at h; simp at h
    | some req2 =>
      rw [executeRequestAux_succ req req2 decode transport i r hcl] at h
      cases hcls : classifyAttempt decode transport i with
      | ok v => rw [hcls] at h; simp at h; omega
      | error err =>
        rw [hcls] at h
        cases err
        case RateLimit m =>
          cases hrec : executeRequestAux req decode transport (i + 1) r with
          | none => rw [hrec] at h; simp at h
          | some p =>
            obtain ⟨res2, n2⟩ := p
            rw [hrec] at h
            simp at h
            have := ih (i + 1) res2 n2 hrec
            omega
        all_goals (simp at h; omega)

/-- When every attempt in the remaining budget would be rate-limited, the
executor exhausts the budget and reports `MaxRetriesReached` after exactly
`r` sends. -/
theorem executeRequestAux_allRateLimited {T : Type} (req : RequestBuilder)
    (decode : String → Except String T) (transport : Transport)
    (hc : req.tryClone.isSome = true) :
    ∀ (r i : Nat),
      (∀ j, j < r → isRateLimited (classifyAttempt decode transport (i + j)) = true) →
      executeRequestAux req decode transport i r =
        some (Except.error ApiClientError.MaxRetriesReached, r) := by
  intro r
  induction r with
  | zero => intro i _; rfl
  | succ r ih =>
    intro i h
    have h0 := h 0 (Nat.succ_pos r)
    rw [Nat.add_zero] at h0
    rw [isRateLimited_iff] at h0
    obtain ⟨m, hm⟩ := h0
    cases hcl : req.tryClone with
    | none => rw [hcl] at hc; simp at hc
    | some req2 =>
      have ihr := ih (i + 1) (fun j hj => by
        have heq : i + 1 + j = i + (j + 1) := by omega
        rw [heq]
        exact h (j + 1) (by omega))
      rw [executeRequestAux_succ req req2 decode transport i r hcl, hm, ihr]

/-- When the first `k` attempts are rate-limited and attempt `k` is not, and
`k` is within the budget, the executor returns attempt `k`'s outcome after
exactly `k + 1` sends. -/
theorem executeRequestAux_firstSettled {T : Type} (req : RequestBuilder)
    (decode : String → Except String T) (transport : Transport)
    (hc : req.tryClone.isSome = true) :
    ∀ (k r i : Nat), k < r →
      (∀ j, j < k → isRateLimited (classifyAttempt decode transport (i + j)) = true) →
      isRateLimited (classifyAttempt decode transport (i + k)) = false →
      executeRequestAux req decode transport i r =
        some (classifyAttempt decode transport (i + k), k + 1) := by
  intro k
  induction k with
  | zero =>
    intro r i hkr _ hnot
    obtain ⟨r2, rfl⟩ : ∃ r2, r = r2 + 1 := ⟨r - 1, by omega⟩
    rw [Nat.add_zero] at hnot
    cases hcl : req.tryClone with
    | none => rw [hcl] at hc; simp at hc
    | some req2 =>
      rw [executeRequestAux_succ req req2 decode transport i r2 hcl]
      cases hcls : classifyAttempt decode transport i with
      | ok v => simp [Nat.add_zero, hcls]
      | error err =>
        rw [hcls] at hnot
        cases err <;> simp [isRateLimited] at hnot <;> simp [Nat.add_zero, hcls]
  | succ k ih =>
    intro r i hkr h hnot
    obtain ⟨r2, rfl⟩ : ∃ r2, r = r2 + 1 := ⟨r - 1, by omega⟩
    have h0 := h 0 (Nat.succ_pos k)
    rw [Nat.add_zero] at h0
    rw [isRateLimited_iff] at h0
    obtain ⟨m, hm⟩ := h0
    cases hcl : req.tryClone with
    | none => rw [hcl] at hc; simp at hc
    | some req2 =>
      have hshift : i + 1 + k = i + (k + 1) := by omega
      have ihr := ih r2 (i + 1) (by omega)
        (fun j hj => by
          have heq : i + 1 + j = i + (j + 1) := by omega
          rw [heq]
          exact h (j + 1) (by omega))
        (by rw [hshift]; exact hnot)
      rw [executeRequestAux_succ req req2 decode transport i r2 hcl, hm, ihr, hshift]

/-- A cloneable request never hits the clone-failure branch: the executor
always produces a result. -/
theorem executeRequestAux_isSome {T : Type} (req : RequestBuilder)
    (decode : String → Except String T) (transport : Transport)
    (hc : req.tryClone.isSome = true) :
    ∀ (r i : Nat), (executeRequestAux req decode transport i r).isSome = true := by
  intro r
  induction r with
  | zero => intro i; rfl
  | succ r ih =>
    intro i
    cases hcl : req.tryClone with
    | none => rw [hcl] at hc; simp at hc
    | some req2 =>
      rw [executeRequestAux_succ req req2 decode transport i r hcl]
      cases hcls : classifyAttempt decode transport i with
      | ok v => rfl
      | error err =>
        cases err <;> try rfl
        case RateLimit m =>
          have := ih (i + 1)
          cases hrec : executeRequestAux req decode transport (i + 1) r with
          | none => rw [hrec] at this; simp at this
          | some p =>
            obtain ⟨res2, n2⟩ := p
            simp [hrec]

/-- A list is a prefix of itself followed by anything. -/
theorem isPrefixOf_append (l r : List Char) : l.isPrefixOf (l ++ r) = true := by
  induction l with
  | nil => simp [List.isPrefixOf]
  | cons a as ih => simp [List.isPrefixOf, ih]

/-- A list occurs as a substring at the front of itself followed by anything. -/
theorem containsSub_append (l r : List Char) : containsSub l (l ++ r) = true := by
  cases l with
  | nil => cases r <;> simp [containsSub, List.isPrefixOf]
  | cons c cs => simp [containsSub, List.isPrefixOf, isPrefixOf_append]

/-- Applying an auth strategy never changes the URL. -/
theorem applyAuth_url (auth : Option AuthStrategy) (r : RequestBuilder) :
    (applyAuth auth r).url = r.url := by
  cases auth with
  | none => rfl
  | some a => cases a <;> rfl

/-- The URL of a prepared GET request is the joined URL. -/
theorem buildGetRequest_url (c : ApiClient) (endpoint : String)
    (params : Option (List (String × String))) :
    (buildGetRequest c endpoint params).url = joinUrl c.base_url endpoint := by
  cases params <;> simp [buildGetRequest, applyAuth_url]

/-- The URL of a prepared POST request is the joined URL. -/
theorem buildPostRequest_url (c : ApiClient) (endpoint : String) :
    (buildPostRequest c endpoint).url = joinUrl c.base_url endpoint := by
  simp [buildPostRequest, applyAuth_url]

/-- An attempt answered by a 429 response classifies as `RateLimit` with the
response body. -/
theorem classifyAttempt_429 {T : Type} (decode : String → Except String T)
    (transport : Transport) (i : Nat) (b : String)
    (h : transport i = Except.ok ⟨429, some b⟩) :
    classifyAttempt decode transport i = Except.error (ApiClientError.RateLimit b) := by
  unfold classifyAttempt
  rw [h]
  rfl

/-- An attempt answered by a 200 response whose body decodes classifies as
success with the decoded payload. -/
theorem classifyAttempt_success {T : Type} (decode : String → Except String T)
    (transport : Transport) (i : Nat) (sb : String) (payload : T)
    (ht : transport i = Except.ok ⟨200, some sb⟩) (hd : decode sb = Except.ok payload) :
    classifyAttempt decode transport i = Except.ok payload := by
  unfold classifyAttempt
  rw [ht]
  dsimp only
  have hstep : handle_response decode ⟨200, some sb⟩ =
      match decode sb with
      | Except.ok v => Except.ok v
      | Except.error e => Except.error (ApiClientError.JsonParse e) := rfl
  rw [hstep, hd]

/-- The field loop of `convert_json_to_pairs` is a `filterMap` over the field
list: scalar fields are stringified in order, all others vanish. -/
theorem convertPairsLoop_eq_filterMap (fields : List (String × Value)) :
    convertPairsLoop fields =
      fields.filterMap (fun kv => (scalarToString kv.2).map (fun s => (kv.1, s))) := by
  induction fields with
  | nil => rfl
  | cons kv rest ih =>
    obtain ⟨k, v⟩ := kv
    cases h : scalarToString v <;> simp [convertPairsLoop, h, ih]

/-! ## Concrete fixtures used by witnesses and counterexamples -/

/-- A concrete decode function: the body text `7` decodes to the number 7,
everything else fails to parse. -/
def dec7 : String → Except String Nat :=
  fun s => if s = "7" then Except.ok 7 else Except.error ("invalid")

/-- A concrete client built from a base URL with a trailing slash. -/
def demoClient : ApiClient := ApiClient.new ("https://api.example.com/") none

/-- A concrete prepared GET request. -/
def reqDemo : RequestBuilder := buildGetRequest demoClient ("items") none

/-- A transport answering 429 three times, then a deserializable success. -/
def transport429ThriceThenOk : Transport :=
  fun i => if i < 3 then Except.ok ⟨429, some ("slow down")⟩ else Except.ok ⟨200, some ("7")⟩

/-- A transport answering 429 twice, then a deserializable success. -/
def transport429TwiceThenOk : Transport :=
  fun i => if i < 2 then Except.ok ⟨429, some ("slow down")⟩ else Except.ok ⟨200, some ("7")⟩

/-- A transport answering 429 on every attempt. -/
def transportAlways429 : Transport :=
  fun _ => Except.ok ⟨429, some ("slow down")⟩

/-- A transport answering 429 once, then a deserializable success. -/
def transport429ThenOk : Transport :=
  fun i => if i = 0 then Except.ok ⟨429, some ("slow")⟩ else Except.ok ⟨200, some ("7")⟩

/-- A transport answering 500 on every attempt. -/
def transport500 : Transport :=
  fun _ => Except.ok ⟨500, some ("oops")⟩

/-- A path-aware decoder that always fails at a nested field path. -/
def deFail : Value → Except PathError Nat :=
  fun _ => Except.error ⟨"user.address.zip", "missing field"⟩

/-- A body serializer that always fails. -/
def serFail : Unit → Except String String :=
  fun _ => Except.error ("cannot serialize")

/-! ## Claim theorems -/

/-- Claim C4: for every base_url and endpoint, with or without surrounding
slashes, the stored base_url never ends with a slash, the URL built by `get`
and `post` is the join of the stored base_url and the stripped endpoint, and
that join has exactly one slash at the seam: it splits as `pre ++ '/' ++ post`
where `pre` does not end with a slash and `post` does not start with one. -/
theorem c4_url_join (raw endpoint : String) (auth : Option AuthStrategy)
    (params : Option (List (String × String))) :
    ((ApiClient.new raw auth).base_url.data.getLast? ≠ some '/') ∧
    ((buildGetRequest (ApiClient.new raw auth) endpoint params).url =
      joinUrl (ApiClient.new raw auth).base_url endpoint) ∧
    ((buildPostRequest (ApiClient.new raw auth) endpoint).url =
      joinUrl (ApiClient.new raw auth).base_url endpoint) ∧
    ∃ pre post,
      (joinUrl (ApiClient.new raw auth).base_url endpoint).data = pre ++ '/' :: post ∧
      pre.getLast? ≠ some '/' ∧ post.head? ≠ some '/' := by
  refine ⟨trimEndMatches_getLast '/' raw.data,
    buildGetRequest_url (ApiClient.new raw auth) endpoint params,
    buildPostRequest_url (ApiClient.new raw auth) endpoint,
    (ApiClient.new raw auth).base_url.data, trimStartMatches '/' endpoint.data,
    rfl, trimEndMatches_getLast '/' raw.data, trimStartMatches_head '/' endpoint.data⟩

/-- Claim C5: `handle_response` classifies every completed response by status.
A success-range status attempts to deserialize the body and maps a failure to
`JsonParse` (so a malformed body under a 200 status yields `JsonParse`, not
`ApiError`); a 429 status yields `RateLimit` carrying the body text; every
other non-success status yields `ApiError` with status and body. -/
theorem c5_handle_response_classification {T : Type}
    (decode : String → Except String T) (r : Response) :
    (isSuccessStatus r.status = true →
      handle_response decode r =
        match decode (bodyText r) with
        | Except.ok v => Except.ok v
        | Except.error e => Except.error (ApiClientError.JsonParse e)) ∧
    (r.status = 429 →
      handle_response decode r = Except.error (ApiClientError.RateLimit (bodyText r))) ∧
    (isSuccessStatus r.status = false → r.status ≠ 429 →
      handle_response decode r =
        Except.error (ApiClientError.ApiError r.status (bodyText r))) ∧
    (∀ e, r.status = 200 → decode (bodyText r) = Except.error e →
      handle_response decode r = Except.error (ApiClientError.JsonParse e)) := by
  refine ⟨?_, ?_, ?_, ?_⟩
  · intro h
    simp [handle_response, h]
  · intro h
    obtain ⟨st, tx⟩ := r
    have hst : st = 429 := h
    subst hst
    rfl
  · intro h1 h2
    simp [handle_response, h1, h2]
  · intro e h200 hde
    have hs : isSuccessStatus r.status = true := by rw [h200]; rfl
    simp [handle_response, hs, hde]

/-- Claim C5 witness: concrete classifications — a 200 response with a
malformed body is `JsonParse`, a 429 response is `RateLimit` with its body,
and a 500 response is `ApiError` with status and body. -/
theorem c5_handle_response_witness :
    handle_response dec7 ⟨200, some ("oops")⟩ =
      Except.error (ApiClientError.JsonParse ("invalid")) ∧
    handle_response dec7 ⟨429, some ("slow")⟩ =
      Except.error (ApiClientError.RateLimit ("slow")) ∧
    handle_response dec7 ⟨500, some ("oops")⟩ =
      Except.error (ApiClientError.ApiError 500 ("oops")) := by
  refine ⟨?_, ?_, ?_⟩
  · exact (c5_handle_response_classification dec7 ⟨200, some ("oops")⟩).2.2.2
      ("invalid") rfl rfl
  · exact (c5_handle_response_classification dec7 ⟨429, some ("slow")⟩).2.1 rfl
  · exact (c5_handle_response_classification dec7 ⟨500, some ("oops")⟩).2.2.1
      rfl (by decide)

/-- Claim C6: `serialize_params` flattens string, bool and number scalar
fields into string pairs in source field order (the spec's example object
yields exactly its pair list), the flattening is a `filterMap` over the field
list, and every array, nested-object or null field is silently dropped. -/
theorem c6_serialize_params_flatten :
    (serialize_params (some (Value.obj
        [("q", Value.str ("x")), ("page", Value.num 2), ("active", Value.bool true)])) =
      Except.ok (some [("q", "x"), ("page", "2"), ("active", "true")])) ∧
    (∀ fields : List (String × Value),
      serialize_params (some (Value.obj fields)) =
        Except.ok (some (fields.filterMap
          (fun kv => (scalarToString kv.2).map (fun s => (kv.1, s)))))) ∧
    (∀ (pre post : List (String × Value)) (k : String) (v : Value),
      scalarToString v = none →
      convertPairsLoop (pre ++ (k, v) :: post) = convertPairsLoop (pre ++ post)) ∧
    (∀ (elems : List Value) (fs : List (String × Value)),
      scalarToString (Value.arr elems) = none ∧
      scalarToString (Value.obj fs) = none ∧
      scalarToString Value.null = none) := by
  refine ⟨rfl, ?_, ?_, fun elems fs => ⟨rfl, rfl, rfl⟩⟩
  · intro fields
    simp [serialize_params, convert_json_to_pairs, convertPairsLoop_eq_filterMap]
  · intro pre post k v hv
    simp [convertPairsLoop_eq_filterMap, List.filterMap_append, List.filterMap_cons, hv]

/-- Claim C6 witness: a concrete non-scalar field (an array) is dropped from
between two scalar fields. -/
theorem c6_serialize_params_witness :
    convertPairsLoop ([("a", Value.num 1)] ++ ("b", Value.arr []) :: [("c", Value.bool false)]) =
      convertPairsLoop ([("a", Value.num 1)] ++ [("c", Value.bool false)]) :=
  c6_serialize_params_flatten.2.2.1 [("a", Value.num 1)] [("c", Value.bool false)]
    ("b") (Value.arr []) rfl

/-- Claim C7 counterexample: the claim says the Debug rendering never contains
the literal secret value supplied at construction, but constructing
`BearerAuth` with the secret `token` yields the rendering
`BearerAuth \x7b token: "***" \x7d`, which contains that secret verbatim. -/
theorem c7_counterexample :
    containsSub ("token").data (BearerAuth.fmtDebug ("token")).data = true := by
  decide

/-- Claim C7 (amended): the Debug rendering of every auth variant is
independent of the secret — identical for any two secret values, exposing only
the variant name, the header field name (for HeaderAuth) and the fixed `***`
mask — so the secret never influences the output; the rendering can only
contain a secret that happens to coincide with that fixed text. -/
theorem c7_debug_redaction (header k₁ k₂ t₁ t₂ : String) :
    HeaderAuth.fmtDebug header k₁ = HeaderAuth.fmtDebug header k₂ ∧
    BearerAuth.fmtDebug t₁ = BearerAuth.fmtDebug t₂ :=
  ⟨rfl, rfl⟩

/-- Claim C9: every request built by `get` has no streaming body, cloning it
succeeds (yielding the identical request, so each retry re-sends the same
request), and thus the clone-failure panic branch of `execute_request` is
unreachable: the call always produces a typed result. -/
theorem c9_get_clone_safe {T : Type} (c : ApiClient) (endpoint : String)
    (params : Option (List (String × String)))
    (decode : String → Except String T) (transport : Transport) :
    (buildGetRequest c endpoint params).body = none ∧
    (buildGetRequest c endpoint params).tryClone = some (buildGetRequest c endpoint params) ∧
    (ApiClient.get c endpoint params decode transport).isSome = true := by
  have hb := buildGetRequest_body c endpoint params
  have hcl := tryClone_of_body_none _ hb
  refine ⟨hb, hcl, ?_⟩
  show (executeRequestAux (buildGetRequest c endpoint params) decode transport 0 3).isSome = true
  exact executeRequestAux_isSome _ decode transport (by rw [hcl]; rfl) 3 0

/-- Claim C10: `serialize_params` of `none` is `Ok(None)`, and for any
parameter value whose JSON form is not an object it silently returns
`Ok(Some [])` rather than an error. -/
theorem c10_serialize_params_corner :
    (serialize_params none = Except.ok none) ∧
    (∀ v : Value, v.isObj = false → serialize_params (some v) = Except.ok (some [])) := by
  refine ⟨rfl, ?_⟩
  intro v hv
  cases v
  case obj fields => simp [Value.isObj] at hv
  all_goals rfl

/-- Claim C10 witness: a bare number parameter serializes to no pairs. -/
theorem c10_serialize_params_corner_witness :
    serialize_params (some (Value.num 5)) = Except.ok (some []) :=
  c10_serialize_params_corner.2 (Value.num 5) rfl

/-- Claim C1 counterexample: with a transport answering 429 on the first three
attempts and a deserializable success on the fourth, the GET call does not
return the success payload — the three-attempt budget is already exhausted by
the three 429s, so the call returns `MaxRetriesReached` after exactly 3 sends,
and the success response is never requested. -/
theorem c1_counterexample :
    ApiClient.get demoClient ("items") none dec7 transport429ThriceThenOk =
      some (Except.error ApiClientError.MaxRetriesReached, 3) ∧
    transport429ThriceThenOk 3 = Except.ok ⟨200, some ("7")⟩ ∧
    dec7 ("7") = Except.ok 7 :=
  ⟨rfl, rfl, rfl⟩

/-- Claim C1 (amended): for a GET call where the transport returns a 429
response, then one more 429 response, then a success response whose body
deserializes as T, the call is retried exactly twice and returns the success
payload (3 total attempts); and when the transport returns 429 four (indeed
three or more) times in a row, the call returns `MaxRetriesReached`, not
`RateLimited`, after the 3-attempt budget. -/
theorem c1_retry_budget {T : Type} (c : ApiClient) (endpoint : String)
    (params : Option (List (String × String))) (decode : String → Except String T)
    (transport : Transport) :
    (∀ (b₀ b₁ sb : String) (payload : T),
      transport 0 = Except.ok ⟨429, some b₀⟩ →
      transport 1 = Except.ok ⟨429, some b₁⟩ →
      transport 2 = Except.ok ⟨200, some sb⟩ →
      decode sb = Except.ok payload →
      ApiClient.get c endpoint params decode transport = some (Except.ok payload, 3)) ∧
    ((∀ j, j < 4 → ∃ bj, transport j = Except.ok ⟨429, some bj⟩) →
      ApiClient.get c endpoint params decode transport =
        some (Except.error ApiClientError.MaxRetriesReached, 3)) := by
  have hb := buildGetRequest_body c endpoint params
  have hcl := tryClone_of_body_none _ hb
  have hcs : (buildGetRequest c endpoint params).tryClone.isSome = true := by
    rw [hcl]; rfl
  constructor
  · intro b₀ b₁ sb payload h0 h1 h2 hd
    have hrl : ∀ j, j < 2 →
        isRateLimited (classifyAttempt decode transport (0 + j)) = true := by
      intro j hj
      rw [Nat.zero_add]
      have : j = 0 ∨ j = 1 := by omega
      rcases this with rfl | rfl
      · rw [classifyAttempt_429 decode transport 0 b₀ h0]; rfl
      · rw [classifyAttempt_429 decode transport 1 b₁ h1]; rfl
    have hok : classifyAttempt decode transport (0 + 2) = Except.ok payload := by
      rw [Nat.zero_add]
      exact classifyAttempt_success decode transport 2 sb payload h2 hd
    have hnot : isRateLimited (classifyAttempt decode transport (0 + 2)) = false := by
      rw [hok]; rfl
    have hfs := executeRequestAux_firstSettled (buildGetRequest c endpoint params)
      decode transport hcs 2 3 0 (by omega) hrl hnot
    show executeRequestAux (buildGetRequest c endpoint params) decode transport 0 3 =
      some (Except.ok payload, 3)
    rw [hfs, hok]
  · intro h429
    have hrl : ∀ j, j < 3 →
        isRateLimited (classifyAttempt decode transport (0 + j)) = true := by
      intro j hj
      rw [Nat.zero_add]
      obtain ⟨bj, hbj⟩ := h429 j (by omega)
      rw [classifyAttempt_429 decode transport j bj hbj]
      rfl
    show executeRequestAux (buildGetRequest c endpoint params) decode transport 0 3 =
      some (Except.error ApiClientError.MaxRetriesReached, 3)
    exact executeRequestAux_allRateLimited (buildGetRequest c endpoint params)
      decode transport hcs 3 0 hrl

/-- Claim C1 witness: with 429 twice then a success the GET call returns the
payload after 3 sends; with 429 on every attempt it returns
`MaxRetriesReached` after 3 sends. -/
theorem c1_retry_budget_witness :
    ApiClient.get demoClient ("items") none dec7 transport429TwiceThenOk =
      some (Except.ok 7, 3) ∧
    ApiClient.get demoClient ("items") none dec7 transportAlways429 =
      some (Except.error ApiClientError.MaxRetriesReached, 3) := by
  constructor
  · exact (c1_retry_budget demoClient ("items") none dec7 transport429TwiceThenOk).1
      ("slow down") ("slow down") ("7") 7 rfl rfl rfl rfl
  · exact (c1_retry_budget demoClient ("items") none dec7 transportAlways429).2
      (fun j hj => ⟨"slow down", rfl⟩)

/-- Claim C2 counterexample: against the very same transport (429 first, then
a deserializable success), `get` retries and returns the payload after 2
sends, but `post` performs no retry at all: it surfaces `RateLimit` to the
caller after a single send — so `post` does not follow the `RequestExecutor`
retry pipeline the claim describes. -/
theorem c2_counterexample :
    ApiClient.post demoClient ("items") (none : Option Unit)
        (fun _ => Except.ok ("")) dec7 transport429ThenOk =
      (Except.error (ApiClientError.RateLimit ("slow")), 1) ∧
    ApiClient.get demoClient ("items") none dec7 transport429ThenOk =
      some (Except.ok 7, 2) :=
  ⟨rfl, rfl⟩

/-- Claim C2 (amended): `post` joins the URL exactly as `get` does and applies
auth, but it does not run the retry loop: it performs at most one transport
send, and a 429 response to a POST is surfaced immediately as `RateLimit`
carrying the body text, never retried. -/
theorem c2_post_single_send {T B : Type} (c : ApiClient) (endpoint : String)
    (decode : String → Except String T) (transport : Transport) :
    ((buildPostRequest c endpoint).url = joinUrl c.base_url endpoint) ∧
    (∀ (body : Option B) (ser : B → Except String String),
      (ApiClient.post c endpoint body ser decode transport).2 ≤ 1) ∧
    (∀ (resp : Response) (ser : B → Except String String),
      transport 0 = Except.ok resp → resp.status = 429 →
      ApiClient.post c endpoint (none : Option B) ser decode transport =
        (Except.error (ApiClientError.RateLimit (bodyText resp)), 1)) := by
  refine ⟨buildPostRequest_url c endpoint, ?_, ?_⟩
  · intro body ser
    cases body with
    | none =>
      show (sendOnce decode transport).2 ≤ 1
      unfold sendOnce
      cases transport 0 <;> simp
    | some b =>
      show (match ser b with
        | Except.error e => (Except.error (ApiClientError.DeserializeError e), 0)
        | Except.ok _ => sendOnce decode transport).2 ≤ 1
      cases ser b with
      | error e => simp
      | ok s =>
        show (sendOnce decode transport).2 ≤ 1
        unfold sendOnce
        cases transport 0 <;> simp
  · intro resp ser ht hst
    obtain ⟨st, tx⟩ := resp
    have hst2 : st = 429 := hst
    subst hst2
    show sendOnce decode transport = (Except.error (ApiClientError.RateLimit (bodyText ⟨429, tx⟩)), 1)
    unfold sendOnce
    rw [ht]
    rfl

/-- Claim C2 witness: a concrete POST against a transport answering 429 first
returns `RateLimit` after one send. -/
theorem c2_post_single_send_witness :
    ApiClient.post demoClient ("items") (none : Option Unit)
        (fun _ => Except.ok ("")) dec7 transport429ThenOk =
      (Except.error (ApiClientError.RateLimit ("slow")), 1) :=
  (c2_post_single_send demoClient ("items") dec7 transport429ThenOk).2.2
    ⟨429, some ("slow")⟩ (fun _ => Except.ok ("")) rfl rfl

/-- Claim C3: for every executed request the retry loop performs at most 3
transport sends; it retries only on rate-limited outcomes — if the first
non-rate-limited outcome occurs at attempt `k` within the budget, the call
returns exactly that outcome (Network, JsonParse, ApiError or success) after
`k + 1` sends, with no further send; if all 3 attempts are rate-limited the
call returns `MaxRetriesReached`, which is distinct from `RateLimited`. -/
theorem c3_bounded_retry {T : Type} (req : RequestBuilder)
    (decode : String → Except String T) (transport : Transport)
    (hclone : req.tryClone.isSome = true) :
    (∀ (res : Except ApiClientError T) (n : Nat),
      execute_request req decode transport = some (res, n) → n ≤ 3) ∧
    (∀ k, k < 3 →
      (∀ j, j < k → isRateLimited (classifyAttempt decode transport j) = true) →
      isRateLimited (classifyAttempt decode transport k) = false →
      execute_request req decode transport =
        some (classifyAttempt decode transport k, k + 1)) ∧
    ((∀ j, j < 3 → isRateLimited (classifyAttempt decode transport j) = true) →
      execute_request req decode transport =
        some (Except.error ApiClientError.MaxRetriesReached, 3)) ∧
    (∀ m, (Except.error ApiClientError.MaxRetriesReached : Except ApiClientError T) ≠
      Except.error (ApiClientError.RateLimit m)) := by
  refine ⟨?_, ?_, ?_, ?_⟩
  · intro res n h
    exact executeRequestAux_sends_le req decode transport 3 0 res n h
  · intro k hk hrl hnot
    have hfs := executeRequestAux_firstSettled req decode transport hclone k 3 0 hk
      (fun j hj => by rw [Nat.zero_add]; exact hrl j hj)
      (by rw [Nat.zero_add]; exact hnot)
    rw [Nat.zero_add] at hfs
    exact hfs
  · intro hrl
    exact executeRequestAux_allRateLimited req decode transport hclone 3 0
      (fun j hj => by rw [Nat.zero_add]; exact hrl j hj)
  · intro m h
    simp at h

/-- Claim C3 witness: against a transport answering 500, the call settles on
the first attempt with that attempt's (non-retried) outcome; against a
transport answering 429 forever it exhausts the budget with
`MaxRetriesReached` after 3 sends. -/
theorem c3_bounded_retry_witness :
    execute_request reqDemo dec7 transport500 =
      some (classifyAttempt dec7 transport500 0, 1) ∧
    execute_request reqDemo dec7 transportAlways429 =
      some (Except.error ApiClientError.MaxRetriesReached, 3) := by
  constructor
  · exact (c3_bounded_retry reqDemo dec7 transport500 rfl).2.1 0 (by omega)
      (fun j hj => absurd hj (Nat.not_lt_zero j)) rfl
  · exact (c3_bounded_retry reqDemo dec7 transportAlways429 rfl).2.2.1
      (fun j hj => rfl)

/-- Claim C8: a failure of the path-aware decode yields a `DeserializeError`
(a kind distinct from `JsonParse`) whose message contains the field path at
which decoding failed; and a failure serializing an outgoing POST body yields
a `DeserializeError` with zero transport sends — fatal and non-retried. -/
theorem c8_deserialize_error_path {T : Type} (de : Value → Except PathError T)
    (v : Value) :
    (∀ e, de v = Except.error e →
      deserialize_response de v =
        Except.error (ApiClientError.DeserializeError (pathErrToString e)) ∧
      containsSub e.path.data (pathErrToString e).data = true) ∧
    (∀ s t, ApiClientError.DeserializeError s ≠ ApiClientError.JsonParse t) ∧
    (∀ (B : Type) (c : ApiClient) (endpoint : String) (b : B)
      (ser : B → Except String String) (decode : String → Except String T)
      (transport : Transport) (e : String), ser b = Except.error e →
      ApiClient.post c endpoint (some b) ser decode transport =
        (Except.error (ApiClientError.DeserializeError e), 0)) := by
  refine ⟨?_, ?_, ?_⟩
  · intro e he
    constructor
    · simp [deserialize_response, he]
    · show containsSub e.path.data (e.path.data ++ (": ").data ++ e.msg.data) = true
      rw [List.append_assoc]
      exact containsSub_append e.path.data ((": ").data ++ e.msg.data)
  · intro s t h
    simp at h
  · intro B c endpoint b ser decode transport e he
    show (match ser b with
      | Except.error er => (Except.error (ApiClientError.DeserializeError er), 0)
      | Except.ok _ => sendOnce decode transport) =
      (Except.error (ApiClientError.DeserializeError e), 0)
    rw [he]

/-- Claim C8 witness: a concrete path-aware decode failure at
`user.address.zip` produces a `DeserializeError` whose message contains that
path, and a concrete failing body serializer makes `post` return
`DeserializeError` with zero sends. -/
theorem c8_deserialize_error_witness :
    (deserialize_response deFail Value.null =
        Except.error (ApiClientError.DeserializeError
          (pathErrToString ⟨"user.address.zip", "missing field"⟩)) ∧
      containsSub ("user.address.zip").data
        (pathErrToString ⟨"user.address.zip", "missing field"⟩).data = true) ∧
    ApiClient.post demoClient ("items") (some ()) serFail dec7 transportAlways429 =
      (Except.error (ApiClientError.DeserializeError ("cannot serialize")), 0) := by
  constructor
  · exact (c8_deserialize_error_path deFail Value.null).1
      ⟨"user.address.zip", "missing field"⟩ rfl
  · exact (c8_deserialize_error_path deFail Value.null).2.2 Unit demoClient
      ("items") () serFail dec7 transportAlways429 ("cannot serialize") rfl

end ApiClientRs
